import Mathlib

/-!
Shallow embedding of the privileged command execution gate and the
container lifecycle / existence-reconciliation engine of the RMDB TUI
(source files `src/pres/executor.rs`, `src/pres/main_app.rs`,
`src/deployment/lxc.rs`).

External effects (subprocess spawning, filesystem probes, key input) are
modelled as explicit environments: pure functions from the request the
code makes to the answer the operating system would return.  Each Rust
function is translated statement by statement over these environments.
Rust `String::len` (a byte count) is modelled by `String.utf8ByteSize`;
Rust `str::contains` (both with a string pattern and with a single
character pattern, which is the one-character-string case) is modelled by
`strContains`; `char::is_alphanumeric` is modelled by `Char.isAlphanum`
(ASCII, which agrees on every input appearing in the development).
-/

/-- Operating posture of the session, `ActionMode` in `executor.rs`. -/
inductive ActionMode
  | ReadOnly
  | Safe
  | Admin
deriving DecidableEq, Repr

/-- Outcome of one shell invocation, `CommandOutput` in `executor.rs`:
exit code (absent when the process was killed by a signal), captured
stdout and stderr text. -/
structure CommandOutput where
  exit_code : Option Int
  stdout : String
  stderr : String
deriving DecidableEq, Repr

/-- Classified failure of an invocation, `ExecError` in `executor.rs`. -/
inductive ExecError
  | NotAllowed (msg : String)
  | MissingTool (msg : String)
  | Failed (msg : String)
deriving DecidableEq, Repr

/-- One spawn request issued to the operating system: program and
argument vector, as built by `std::process::Command`. -/
structure SpawnReq where
  prog : String
  args : List String
deriving DecidableEq, Repr

/-- What the operating system answers to a spawn request: the process
could not be launched at all (`Command::output()` returned `Err`), or it
ran to completion with an exit status and captured output. -/
inductive SpawnResult
  | failed (msg : String)
  | finished (code : Option Int) (out : String) (err : String)
deriving DecidableEq, Repr

/-- The process environment: the outcome of every possible spawn
request. -/
def SpawnEnv : Type := SpawnReq → SpawnResult

/-- Message text of the `NotAllowed` denial in `run_shell` (verbatim from
the source). -/
def notAllowedMsg : String := "Action admin refusée: passez en mode Admin"

/-- Message text of the `MissingTool` denial in `run_shell` (verbatim
from the source). -/
def missingToolMsg : String := "sudo est requis en mode Admin mais introuvable"

/-- Prefix of the spawn-failure message on the sudo path of
`run_shell`. -/
def failedSudoMsgPre : String := "Impossible d\x27exécuter la commande avec sudo: "

/-- Prefix of the spawn-failure message on the plain path of
`run_shell`. -/
def failedShMsgPre : String := "Impossible d\x27exécuter la commande: "

/-- The spawn request `run_shell` builds: `sudo -n sh -c cmd` when the
command requires admin and the mode is Admin, otherwise `sh -lc cmd`. -/
def spawnReqFor (mode : ActionMode) (cmd : String) (requires_admin : Bool) : SpawnReq :=
  if requires_admin = true ∧ mode = ActionMode.Admin then
    { prog := "sudo", args := ["-n", "sh", "-c", cmd] }
  else
    { prog := "sh", args := ["-lc", cmd] }

/-- The spawn-failure message produced by `run_shell`, which differs
between the sudo and the plain path. -/
def spawnFailMsg (mode : ActionMode) (requires_admin : Bool) (msg : String) : String :=
  if requires_admin = true ∧ mode = ActionMode.Admin then failedSudoMsgPre ++ msg
  else failedShMsgPre ++ msg

/-- Rust `CommandExecutor::run_shell` (`executor.rs` lines 53-92), with
the spawn side effect made explicit: returns the classified result
together with the list of spawn requests actually issued, in order.  Of
the `Capabilities` value held by the executor only the `has_sudo` field
is ever read by `run_shell`, so the embedding carries just that field. -/
def run_shell (mode : ActionMode) (has_sudo : Bool) (env : SpawnEnv)
    (cmd : String) (requires_admin : Bool) :
    Except ExecError CommandOutput × List SpawnReq :=
  if requires_admin = true ∧ mode ≠ ActionMode.Admin then
    (Except.error (ExecError.NotAllowed notAllowedMsg), [])
  else if requires_admin = true ∧ has_sudo = false then
    (Except.error (ExecError.MissingTool missingToolMsg), [])
  else
    let req := spawnReqFor mode cmd requires_admin
    match env req with
    | SpawnResult.failed msg =>
        (Except.error (ExecError.Failed (spawnFailMsg mode requires_admin msg)), [req])
    | SpawnResult.finished code out err =>
        (Except.ok { exit_code := code, stdout := out, stderr := err }, [req])

/-- Whether the character list `p` is a prefix of `s`, by `==` on
characters. -/
def listHasPre : List Char → List Char → Bool
  | _, [] => true
  | [], _ :: _ => false
  | a :: s, b :: p => a == b && listHasPre s p

/-- Whether the character list `p` occurs contiguously inside `s`. -/
def listContainsSub (p : List Char) : List Char → Bool
  | [] => p.isEmpty
  | a :: rest => listHasPre (a :: rest) p || listContainsSub p rest

/-- Substring containment, mirroring Rust `str::contains`. -/
def strContains (s pat : String) : Bool :=
  listContainsSub pat.data s.data

/-- Rust `str::starts_with`. -/
def strStartsWith (s pre : String) : Bool :=
  listHasPre s.data pre.data

/-- Rust `str::ends_with`. -/
def strEndsWith (s suf : String) : Bool :=
  listHasPre s.data.reverse suf.data.reverse

/-- Rust `str::trim`: leading and trailing whitespace removed. -/
def strTrim (s : String) : String :=
  String.mk (((s.data.dropWhile Char.isWhitespace).reverse.dropWhile Char.isWhitespace).reverse)

/-- Rust `str::to_lowercase` (ASCII range, which covers every input of
this development). -/
def strToLower (s : String) : String :=
  String.mk (s.data.map Char.toLower)

/-- Rust `str::to_uppercase` (ASCII range). -/
def strToUpper (s : String) : String :=
  String.mk (s.data.map Char.toUpper)

/-- Splits a character list at every occurrence of the separator,
keeping empty segments, mirroring Rust `str::split`. -/
def splitOnChar (sep : Char) : List Char → List (List Char)
  | [] => [[]]
  | c :: rest =>
      match splitOnChar sep rest with
      | [] => [[]]
      | seg :: segs => if c == sep then [] :: seg :: segs else (c :: seg) :: segs

/-- Strips one trailing carriage return, as Rust `str::lines` does. -/
def stripCR (l : List Char) : List Char :=
  match l.getLast? with
  | some c => if c == '\r' then l.dropLast else l
  | none => l

/-- Rust `str::lines`: split on newline, the final segment dropped when
empty (a trailing newline produces no empty line), and a trailing
carriage return stripped from each line. -/
def rustLines (s : String) : List String :=
  let segs := splitOnChar '\n' s.data
  let segs := match segs.getLast? with
    | some [] => segs.dropLast
    | _ => segs
  segs.map (fun l => String.mk (stripCR l))

/-- The interface the lifecycle code in `lxc.rs` sees of a
`CommandExecutor` reference: the result of `run_shell(cmd,
requires_admin)` for each command string.  (A concrete
`run_shell mode has_sudo env` has this type once the spawn trace is
dropped.) -/
def Exec : Type := String → Bool → Except ExecError CommandOutput

/-- Evaluates one `if let Ok(output) = executor.run_shell(cmd, admin)`
followed by `output.stdout.contains(pat)`; an `Err` counts as a miss. -/
def execStdoutContains (exec : Exec) (cmd : String) (admin : Bool) (pat : String) : Bool :=
  match exec cmd admin with
  | Except.ok o => strContains o.stdout pat
  | Except.error _ => false

/-- Environment for the plain `check_container_exists` (`lxc.rs` lines
104-151), which spawns its probes directly rather than through the
executor: captured stdout of each listing command (`none` when the
command failed to run or its output was not UTF-8), plus the
`Path::exists` predicate and the `HOME` variable. -/
structure PlainCheckEnv where
  home : String
  lxcLsStdout : Option String
  lxcLsFancyStdout : Option String
  lxcListCsvStdout : Option String
  pathExists : String → Bool

/-- The two storage-root directories probed by `check_container_exists`:
`/var/lib/lxc/<name>` and `$HOME/.local/share/lxc/<name>`. -/
def containerPathsPlain (home name : String) : List String :=
  ["/var/lib/lxc/" ++ name, home ++ "/.local/share/lxc/" ++ name]

/-- Rust `LXCDeployment::check_container_exists` (`lxc.rs` lines
104-151): `lxc-ls` exact-line match, then `lxc-ls --fancy` substring
match, then `lxc list --format csv -c n` exact-line match, then bare
directory existence under the two storage roots. -/
def check_container_exists (w : PlainCheckEnv) (container_name : String) : Bool :=
  if (match w.lxcLsStdout with
      | some s => (rustLines s).any (fun line => strTrim line == container_name)
      | none => false) then true
  else if (match w.lxcLsFancyStdout with
      | some s => (rustLines s).any (fun line => strContains line container_name)
      | none => false) then true
  else if (match w.lxcListCsvStdout with
      | some s => (rustLines s).any (fun line => strTrim line == container_name)
      | none => false) then true
  else
    (containerPathsPlain w.home container_name).any w.pathExists

/-- The three storage-root directories probed by
`check_container_exists_with_executor`. -/
def containerPathsExec (home name : String) : List String :=
  ["/var/lib/lxc/" ++ name,
   home ++ "/.local/share/lxc/" ++ name,
   "/var/lib/lxd/containers/" ++ name]

/-- The `test -d <path> && echo 'found' || echo 'not found'` probe
string. -/
def testDirCmd (path : String) : String :=
  "test -d " ++ path ++ " && echo \x27found\x27 || echo \x27not found\x27"

/-- The `test -f <path>/config && echo 'yes' || echo 'no'` probe
string. -/
def configCheckCmd (path : String) : String :=
  "test -f " ++ path ++ "/config && echo \x27yes\x27 || echo \x27no\x27"

/-- The `test -d <path>/rootfs && echo 'yes' || echo 'no'` probe
string. -/
def rootfsCheckCmd (path : String) : String :=
  "test -d " ++ path ++ "/rootfs && echo \x27yes\x27 || echo \x27no\x27"

/-- The structural-validity probe of one candidate directory inside
`check_container_exists_with_executor`: both probe commands must return
`Ok`, and either stdout must contain `yes` (a configuration file or a
`rootfs` subtree is present). -/
def validStructureAt (exec : Exec) (path : String) : Bool :=
  match exec (configCheckCmd path) true, exec (rootfsCheckCmd path) true with
  | Except.ok c, Except.ok r => strContains c.stdout "yes" || strContains r.stdout "yes"
  | _, _ => false

/-- The sudo `lxc-ls` confirmation command built by
`check_container_exists_with_executor`. -/
def sudoLxcLsGrepCmd (name : String) : String :=
  "sudo -n lxc-ls -1 2>/dev/null | grep -q \x27^" ++ name ++ "$\x27 && echo \x27found\x27 || echo \x27not found\x27"

/-- The non-sudo `lxc-ls` confirmation command built by
`check_container_exists_with_executor`. -/
def plainLxcLsGrepCmd (name : String) : String :=
  "lxc-ls -1 2>/dev/null | grep -q \x27^" ++ name ++ "$\x27 && echo \x27found\x27 || echo \x27not found\x27"

/-- The `lxc list` confirmation command built by
`check_container_exists_with_executor`. -/
def lxcListGrepCmd (name : String) : String :=
  "lxc list --format csv -c n 2>/dev/null | grep -q \x27^" ++ name ++ "$\x27 && echo \x27found\x27 || echo \x27not found\x27"

/-- Rust `LXCDeployment::check_container_exists_with_executor` (`lxc.rs`
lines 261-342): directory probes over the three storage roots first; if
none answers, report false; then the config/rootfs structural probes; if
none answers, report false; then the three listing confirmations; if all
miss, fall back to the structural verdict. -/
def check_container_exists_with_executor (exec : Exec) (home name : String) : Bool :=
  let paths := containerPathsExec home name
  let filesystem_exists := paths.any (fun p => execStdoutContains exec (testDirCmd p) true "found")
  if filesystem_exists = false then false
  else
    let has_valid_structure := paths.any (fun p => validStructureAt exec p)
    if has_valid_structure = false then false
    else
      if execStdoutContains exec (sudoLxcLsGrepCmd name) true "found" then true
      else if execStdoutContains exec (plainLxcLsGrepCmd name) false "found" then true
      else if execStdoutContains exec (lxcListGrepCmd name) false "found" then true
      else has_valid_structure

/-- The three advisory commands issued by `cleanup_ghost_container`. -/
def cleanupGhostCmds (name : String) : List String :=
  ["sudo -n lxc-ls -1 2>/dev/null | grep -q \x27^" ++ name ++ "$\x27 || true",
   "sudo -n rm -f /var/lib/lxc/.lxc-lock-" ++ name ++ " 2>/dev/null || true",
   "sudo -n rm -f /var/lib/lxc/" ++ name ++ "/.lxc-lock 2>/dev/null || true"]

/-- Rust `LXCDeployment::cleanup_ghost_container` (`lxc.rs` lines
365-383): runs the three advisory commands, discards every result, and
returns a synthetic zero-exit `CommandOutput`. -/
def cleanup_ghost_container (exec : Exec) (name : String) : Except ExecError CommandOutput :=
  let _ := (cleanupGhostCmds name).map (fun c => exec c true)
  Except.ok { exit_code := some 0, stdout := "", stderr := "" }

/-- The candidate configuration-file paths probed by
`find_container_config_path_by_name`. -/
def configPathCandidates (home name : String) : List String :=
  ["/var/lib/lxc/" ++ name ++ "/config",
   "/var/lib/lxd/containers/" ++ name ++ "/config",
   home ++ "/.local/share/lxc/" ++ name ++ "/config"]

/-- The `test -f <path> && echo 'found' || echo 'not found'` probe
string. -/
def testFileCmd (path : String) : String :=
  "test -f " ++ path ++ " && echo \x27found\x27 || echo \x27not found\x27"

/-- Rust `LXCDeployment::find_container_config_path_by_name` (`lxc.rs`
lines 879-896): the first candidate path whose probe answers `found`. -/
def find_container_config_path_by_name (exec : Exec) (home name : String) : Option String :=
  (configPathCandidates home name).find?
    (fun p => execStdoutContains exec (testFileCmd p) true "found")

/-- The `test -f /var/lib/lxc/<name>/config && echo 'exists' || echo
'missing'` probe string used on the retry path of stop/start. -/
def configExistsCmd (name : String) : String :=
  "test -f /var/lib/lxc/" ++ name ++ "/config && echo \x27exists\x27 || echo \x27missing\x27"

/-- Rust `LXCDeployment::stop_container_by_name` (`lxc.rs` lines
929-957): stop via the discovered config path or the storage-root form;
on a non-zero exit without a discovered config, re-probe the default
config file and retry with it when present. -/
def stop_container_by_name (exec : Exec) (home name : String) : Except ExecError CommandOutput :=
  let config_path := find_container_config_path_by_name exec home name
  let cmd := match config_path with
    | some config => "lxc-stop -f " ++ config ++ " -n " ++ name
    | none => "lxc-stop -P /var/lib/lxc -n " ++ name
  let result := exec cmd true
  match result with
  | Except.ok o =>
      if o.exit_code ≠ some 0 ∧ config_path = none then
        match exec (configExistsCmd name) true with
        | Except.ok check_output =>
            if strContains check_output.stdout "exists" then
              exec ("lxc-stop -f /var/lib/lxc/" ++ name ++ "/config -n " ++ name) true
            else result
        | Except.error _ => result
      else result
  | Except.error e => Except.error e

/-- The forced removal command issued by `destroy_container_by_name`. -/
def destroyCmdByName (name : String) : String :=
  "lxc-destroy -f -n " ++ name ++ " 2>&1"

/-- Rust `LXCDeployment::destroy_container_by_name` (`lxc.rs` lines
960-968): best-effort stop whose result is discarded, then the forced
destroy, whose result is returned verbatim. -/
def destroy_container_by_name (exec : Exec) (home name : String) : Except ExecError CommandOutput :=
  let _ := stop_container_by_name exec home name
  exec (destroyCmdByName name) true

/-- The success classification the caller `containers_destroy`
(`main_app.rs` lines 3326-3337) applies to the destroy result: an `Ok`
carrying exit code 0. -/
def destroy_reported_success (r : Except ExecError CommandOutput) : Bool :=
  match r with
  | Except.ok o => o.exit_code == some 0
  | Except.error _ => false

/-- One entry the optional `DeploymentLogger` would receive, in order of
emission. -/
inductive LogEntry
  | info (m : String)
  | warn (m : String)
  | error (m : String)
  | command (m : String)
  | commandOutput (out : String) (err : String) (code : Option Int)
deriving DecidableEq, Repr

/-- Environment of `create_container`: outcomes of its direct probes
(`check_lxc_installed`, `check_lxc_templates`,
`distribution.needs_root_for_lxc`, `setup_lxc_config_for_rhel`), the
distribution-specific install-command text used in the `MissingTool`
message, the result of the n-th call of
`check_container_exists_with_executor` during this create (call 0 is the
pre-creation check, calls 1 to 5 the post-creation re-polls), and the
executor results for the creation command strings. -/
structure CreateEnv where
  lxcInstalled : Bool
  templatesDetected : Bool
  needsRootForLxc : Bool
  setupRhelResult : Option ExecError
  installCmd : String
  checkExists : Nat → Bool
  runShell : String → Except ExecError CommandOutput

/-- The primary creation syntax, `lxc-create -n <name> -t alpine --
--release v<version>`. -/
def createCmd1 (name ver : String) : String :=
  "lxc-create -n " ++ name ++ " -t alpine -- --release v" ++ ver

/-- The fallback creation syntax through the `download` template. -/
def createCmd2 (name ver : String) : String :=
  "lxc-create -n " ++ name ++ " -t download -- --dist alpine --release " ++ ver ++ " --arch amd64"

/-- The warning logged when the bounded post-creation re-polling never
confirms the container (verbatim from the source). -/
def createUnverifiedWarning : String :=
  "ATTENTION: Le container semble créé mais n\x27est pas détectable!"

/-- Return value of the embedded `create_container`: the Rust return
value, the log entries emitted, and the creation commands actually
handed to the executor. -/
structure CreateOutcome where
  result : Except ExecError CommandOutput
  log : List LogEntry
  creationCmds : List String

/-- Rust `LXCDeployment::create_container` (`lxc.rs` lines 153-258):
installation check, template advisory, pre-creation existence check,
optional RHEL setup, primary creation syntax with fallback to the
download syntax, and the bounded post-creation re-polling (5 attempts)
whose failure is only logged.  The internal logging of
`setup_lxc_config_for_rhel` is abstracted into its environment result;
sleeps have no observable effect in the embedding. -/
def create_container (w : CreateEnv) (name ver : String) : CreateOutcome :=
  let log := [LogEntry.info ("Début de la création du container \x27" ++ name ++ "\x27")]
  if w.lxcInstalled = false then
    let msg := "LXC n\x27est pas installé. Installez-le avec: " ++ w.installCmd
    { result := Except.error (ExecError.MissingTool msg)
      log := log ++ [LogEntry.error msg]
      creationCmds := [] }
  else
    let log := log ++ [LogEntry.info "LXC est installé"]
    let log := log ++
      (if w.templatesDetected = false then
        [LogEntry.warn "Les templates LXC n\x27ont pas été détectés, mais on continue quand même"]
      else [LogEntry.info "Templates LXC détectés"])
    if w.checkExists 0 = true then
      let msg := "Le container " ++ name ++ " existe déjà"
      { result := Except.error (ExecError.Failed msg)
        log := log ++ [LogEntry.error msg]
        creationCmds := [] }
    else
      let log := log ++ [LogEntry.info "Le container n\x27existe pas encore, on peut le créer"]
      match (if w.needsRootForLxc then w.setupRhelResult else none) with
      | some e => { result := Except.error e, log := log, creationCmds := [] }
      | none =>
        let cmd1 := createCmd1 name ver
        let log := log ++ [LogEntry.command cmd1]
        let result1 := w.runShell cmd1
        let firstFailed :=
          match result1 with
          | Except.error _ => true
          | Except.ok o => o.exit_code != some 0
        let step :=
          if firstFailed then
            let log := log ++ [LogEntry.warn "La première méthode de création a échoué, essai avec \x27download\x27"]
            let cmd2 := createCmd2 name ver
            let log := log ++ [LogEntry.command cmd2]
            let result2 := w.runShell cmd2
            let log := log ++
              (match result2 with
               | Except.ok o =>
                   [LogEntry.commandOutput o.stdout o.stderr o.exit_code] ++
                   (if o.exit_code == some 0 then
                      [LogEntry.info "Container créé avec succès (méthode download)"]
                    else
                      [LogEntry.error "Échec de la création du container (méthode download)",
                       LogEntry.error ("stderr: " ++ o.stderr)])
               | Except.error _ => [])
            (result2, log, [cmd1, cmd2])
          else
            let log := log ++
              (match result1 with
               | Except.ok o =>
                   [LogEntry.commandOutput o.stdout o.stderr o.exit_code] ++
                   (if o.exit_code == some 0 then
                      [LogEntry.info "Container créé avec succès (méthode alpine)"]
                    else
                      [LogEntry.error ("stderr: " ++ o.stderr)])
               | Except.error _ => [])
            (result1, log, [cmd1])
        let final_result := step.1
        let log := step.2.1
        let log :=
          match final_result with
          | Except.ok o =>
            if o.exit_code == some 0 then
              let log2 := log ++ [LogEntry.info "Vérification de l\x27existence réelle du container..."]
              match List.find? (fun k => w.checkExists k) [1, 2, 3, 4, 5] with
              | some attempt =>
                  log2 ++ [LogEntry.info ("Container vérifié et existant (tentative " ++ toString attempt ++ ")")]
              | none =>
                  log2 ++ [LogEntry.error createUnverifiedWarning,
                           LogEntry.error "Cela peut indiquer un problème de permissions ou de configuration LXC"]
            else log
          | Except.error _ => log
        { result := final_result, log := log, creationCmds := step.2.2 }

/-- One named container as seen by the listing reconciler,
`ContainerInfo` in `lxc.rs`. -/
structure ContainerInfo where
  name : String
  status : String
deriving DecidableEq, Repr

/-- Environment of `list_all_containers`: the executor, the direct
`fs::read_dir` view (entry names of a directory, `none` on error), the
direct `Path::exists` predicate, and the result of
`get_container_status_by_name` for each name (that subroutine never
returns `Err` in the source, and the value only decorates the records,
so it is carried as an oracle). -/
structure ListEnv where
  exec : Exec
  readDir : String → Option (List String)
  fsExists : String → Bool
  statusOf : String → String

/-- The sudo one-per-line enumerator command string. -/
def sudoLxcLsCmd : String := "sudo -n lxc-ls -1 2>&1"

/-- The non-sudo one-per-line enumerator command string. -/
def plainLxcLsCmd : String := "lxc-ls -1 2>&1"

/-- The probe for the presence of the `lxc` binary. -/
def checkLxcCmdStr : String := "command -v lxc >/dev/null 2>&1 && echo \x27exists\x27 || echo \x27not found\x27"

/-- The structured (CSV) enumerator command string. -/
def lxcListCsvCmd : String := "lxc list --format csv -c n,s 2>/dev/null"

/-- The sudo directory listing command for one storage root. -/
def sudoLsCmd (base : String) : String := "sudo -n ls -1 " ++ base ++ " 2>&1"

/-- The sudo config-file probe for one candidate container directory of
the directory strategy. -/
def sudoConfigCheckCmd (p : String) : String :=
  "sudo -n test -f " ++ p ++ "/config && echo \x27yes\x27 || echo \x27no\x27"

/-- The sudo rootfs probe for one candidate container directory of the
directory strategy. -/
def sudoRootfsCheckCmd (p : String) : String :=
  "sudo -n test -d " ++ p ++ "/rootfs && echo \x27yes\x27 || echo \x27no\x27"

/-- The strict token validator used by the sudo enumerator and the
directory strategies (`is_valid_name` in `list_all_containers`, first
and fourth occurrence): alphanumeric, hyphen or underscore characters
only, no leading or trailing hyphen, no space, no colon. -/
def is_valid_name_strict (s : String) : Bool :=
  s.data.all (fun c => c.isAlphanum || c == '-' || c == '_')
    && !(strStartsWith s "-") && !(strEndsWith s "-")
    && !(strContains s " ") && !(strContains s ":")

/-- The token validator used by the structured-list strategy
(`is_valid_name` in `list_all_containers`, second and third occurrence):
alphanumeric, hyphen or underscore characters only, no leading or
trailing hyphen. -/
def is_valid_name_csv (s : String) : Bool :=
  s.data.all (fun c => c.isAlphanum || c == '-' || c == '_')
    && !(strStartsWith s "-") && !(strEndsWith s "-")

/-- The error-text rejections shared by the enumerator and directory
strategies. -/
def errorTextFree (line : String) : Bool :=
  !(strStartsWith line "sudo:")
    && !(strContains (strToLower line) "error")
    && !(strContains (strToLower line) "permission denied")
    && !(strContains (strToLower line) "bash:")
    && !(strContains (strToLower line) "commande")
    && !(strContains (strToLower line) "inconnue")
    && !(strContains (strToLower line) "command not found")

/-- The per-line acceptance test of the sudo one-per-line enumerator
(`lxc.rs` lines 596-624), applied to the trimmed line against the set of
already-found names. -/
def accept_sudo_lxc_ls (found : List String) (line : String) : Bool :=
  !line.isEmpty && errorTextFree line
    && decide (line.utf8ByteSize < 50) && decide (0 < line.utf8ByteSize)
    && is_valid_name_strict line && !(found.contains line)

/-- The per-line acceptance test of the non-sudo one-per-line enumerator
(`lxc.rs` lines 629-650): the error-text and length rejections only —
this occurrence carries no token validator. -/
def accept_plain_lxc_ls (found : List String) (line : String) : Bool :=
  !line.isEmpty && errorTextFree line
    && decide (line.utf8ByteSize < 50) && !(found.contains line)

/-- The per-name acceptance test of the structured-list strategy
(`lxc.rs` lines 689-699 and 715-725; both branches apply the same
conditions). -/
def accept_csv_name (found : List String) (name : String) : Bool :=
  !name.isEmpty && name != "NAME"
    && !(strContains (strToLower name) "error")
    && !(strContains (strToLower name) "bash:")
    && !(strContains name "commande")
    && !(strContains name "inconnue")
    && !(strContains name ":")
    && !(strContains name " ")
    && decide (name.utf8ByteSize < 50) && decide (0 < name.utf8ByteSize)
    && is_valid_name_csv name && !(found.contains name)

/-- The per-entry acceptance test of the sudo directory strategy
(`lxc.rs` lines 750-768), before the config/rootfs probes. -/
def accept_dir_entry (found : List String) (name : String) : Bool :=
  !name.isEmpty && !(strStartsWith name ".") && errorTextFree name
    && decide (name.utf8ByteSize < 50) && decide (0 < name.utf8ByteSize)
    && is_valid_name_strict name && !(found.contains name)

/-- Accumulator of `list_all_containers`: the `found_names` set and the
`containers` vector. -/
def ListAcc : Type := List String × List ContainerInfo

/-- Records one accepted name, mirroring `found_names.insert` plus
`containers.push`. -/
def pushName (st : ListAcc) (name status : String) : ListAcc :=
  (name :: st.1, st.2 ++ [{ name := name, status := status }])

/-- One line of the sudo one-per-line enumerator. -/
def listStep1 (w : ListEnv) (st : ListAcc) (rawLine : String) : ListAcc :=
  let line := strTrim rawLine
  if accept_sudo_lxc_ls st.1 line then pushName st line (w.statusOf line) else st

/-- One line of the non-sudo one-per-line enumerator. -/
def listStep2 (w : ListEnv) (st : ListAcc) (rawLine : String) : ListAcc :=
  let line := strTrim rawLine
  if accept_plain_lxc_ls st.1 line then pushName st line (w.statusOf line) else st

/-- One line of the structured-list strategy: CSV split into name and
status columns, or a bare name. -/
def listStep3 (w : ListEnv) (st : ListAcc) (rawLine : String) : ListAcc :=
  let line := strTrim rawLine
  if line.isEmpty then st
  else
    match (splitOnChar ',' line.data).map String.mk with
    | p0 :: p1 :: _ =>
        let name := strTrim p0
        let status := strTrim p1
        if accept_csv_name st.1 name then pushName st name (strToUpper status) else st
    | [p0] =>
        let name := strTrim p0
        if accept_csv_name st.1 name then pushName st name (w.statusOf name) else st
    | [] => st

/-- One line of the sudo directory strategy: validate the entry name,
then require a config file or rootfs subtree probe to answer `yes`. -/
def listStep4 (w : ListEnv) (base : String) (st : ListAcc) (rawLine : String) : ListAcc :=
  let name := strTrim rawLine
  if accept_dir_entry st.1 name then
    let container_path := base ++ "/" ++ name
    let is_container :=
      (match w.exec (sudoConfigCheckCmd container_path) true with
       | Except.ok o => strContains o.stdout "yes"
       | Except.error _ => false)
      || (match w.exec (sudoRootfsCheckCmd container_path) true with
          | Except.ok o => strContains o.stdout "yes"
          | Except.error _ => false)
    if is_container then pushName st name (w.statusOf name) else st
  else st

/-- One entry of the direct `fs::read_dir` pass of the directory
strategy: hidden and already-found names are skipped, then a config file
or rootfs subtree must exist. -/
def listStep5 (w : ListEnv) (base : String) (st : ListAcc) (entryName : String) : ListAcc :=
  if !(strStartsWith entryName ".") && !(st.1.contains entryName) then
    if w.fsExists (base ++ "/" ++ entryName ++ "/config")
        || w.fsExists (base ++ "/" ++ entryName ++ "/rootfs") then
      pushName st entryName (w.statusOf entryName)
    else st
  else st

/-- Insertion step of the final name sort (`containers.sort_by` on the
name field). -/
def insertByName (c : ContainerInfo) : List ContainerInfo → List ContainerInfo
  | [] => [c]
  | d :: rest =>
      match compare c.name d.name with
      | Ordering.gt => d :: insertByName c rest
      | _ => c :: d :: rest

/-- The final name sort of `list_all_containers`. -/
def sortByName (l : List ContainerInfo) : List ContainerInfo :=
  l.foldr insertByName []

/-- Rust `LXCDeployment::list_all_containers` (`lxc.rs` lines 584-821).
The source always returns `Ok(containers)`; the embedding returns the
vector itself.  Strategies in source order: sudo one-per-line
enumerator, non-sudo one-per-line enumerator, structured list (guarded
by the `lxc` binary probe and a whole-output error-text check), and per
storage root the sudo directory listing followed by the direct
`fs::read_dir` pass; finally the name sort. -/
def list_all_containers (w : ListEnv) : List ContainerInfo :=
  let st : ListAcc := ([], [])
  let st := match w.exec sudoLxcLsCmd true with
    | Except.ok o => (rustLines o.stdout).foldl (listStep1 w) st
    | Except.error _ => st
  let st := match w.exec plainLxcLsCmd false with
    | Except.ok o => (rustLines o.stdout).foldl (listStep2 w) st
    | Except.error _ => st
  let has_lxc_cmd := match w.exec checkLxcCmdStr false with
    | Except.ok o => strContains o.stdout "exists"
    | Except.error _ => false
  let st := if has_lxc_cmd then
      match w.exec lxcListCsvCmd false with
      | Except.ok o =>
          let sl := strToLower o.stdout
          if !(strContains sl "error") && !(strContains sl "bash:")
              && !(strContains sl "commande") && !(strContains sl "inconnue")
              && !(strContains sl "command not found") then
            (rustLines o.stdout).foldl (listStep3 w) st
          else st
      | Except.error _ => st
    else st
  let st := ["/var/lib/lxc", "/var/lib/lxd/containers"].foldl
    (fun st base =>
      let st := match w.exec (sudoLsCmd base) true with
        | Except.ok o => (rustLines o.stdout).foldl (listStep4 w base) st
        | Except.error _ => st
      match w.readDir base with
      | some entries => entries.foldl (listStep5 w base) st
      | none => st) st
  sortByName st.2

/-- Key classes relevant to the password prompt loop of
`show_sudo_password_prompt` (`main_app.rs`). -/
inductive Key
  | enter
  | quit
  | other
deriving DecidableEq, Repr

/-- Outcome of one pass of the `show_sudo_password_prompt` retry loop:
`success` is `return true`, `cancel` is `return false`, `retry` is
`continue`. -/
inductive AuthOutcome
  | success
  | retry
  | cancel
deriving DecidableEq, Repr

/-- Environment of one pass of the `show_sudo_password_prompt` loop: the
password typed (`none` when the user quits during entry), whether
`sudo -S -v` could be spawned, whether the password could be written to
its stdin, the result of waiting on it (`none` = wait error, otherwise
the exit status whose `code()` is an `Option Int`), the status of the
separate non-interactive `sudo -n -v` probe (`none` = it could not be
spawned), and the key pressed on each error screen. -/
structure AuthEnv where
  passwordEntry : Option String
  spawnOk : Bool
  writeOk : Bool
  waitStatus : Option (Option Int)
  verifyStatus : Option (Option Int)
  keyAfterEmpty : Key
  keyAfterSpawnErr : Key
  keyAfterWriteErr : Key
  keyAfterWaitErr : Key
  keyAfterBadCode : Key
  keyAfterVerifyFail : Key

/-- The error-screen key handling shared by every failure path of the
prompt: `Quit` cancels (`return false`), everything else retries
(`continue`). -/
def retryOrCancel (k : Key) : AuthOutcome :=
  if k = Key.quit then AuthOutcome.cancel else AuthOutcome.retry

/-- One pass of Rust `show_sudo_password_prompt` (`main_app.rs` lines
298-647), screen drawing elided: empty password, spawn failure, stdin
write failure and wait failure each show an error screen and retry or
cancel; then the submission exit code (`status.code().unwrap_or(-1)`)
must be exactly 0; then the separate non-interactive `sudo -n -v`
validation probe must also exit exactly 0; only then does the routine
report success. -/
def show_sudo_password_prompt_attempt (env : AuthEnv) : AuthOutcome :=
  match env.passwordEntry with
  | none => AuthOutcome.cancel
  | some password =>
    if password.isEmpty then retryOrCancel env.keyAfterEmpty
    else if env.spawnOk = false then retryOrCancel env.keyAfterSpawnErr
    else if env.writeOk = false then retryOrCancel env.keyAfterWriteErr
    else
      match env.waitStatus with
      | none => retryOrCancel env.keyAfterWaitErr
      | some code =>
        let exit_code := code.getD (-1)
        if exit_code ≠ 0 then retryOrCancel env.keyAfterBadCode
        else
          let verify_success :=
            match env.verifyStatus with
            | some vcode => vcode.getD (-1) == 0
            | none => false
          if verify_success = false then retryOrCancel env.keyAfterVerifyFail
          else AuthOutcome.success

/-- A world in which every listing command reports the name `ghosty` but
no storage-root directory exists at all. -/
def ghostPlainEnv : PlainCheckEnv :=
  { home := "/root"
    lxcLsStdout := some "ghosty\n"
    lxcLsFancyStdout := some "NAME STATE\nghosty STOPPED\n"
    lxcListCsvStdout := some "ghosty\n"
    pathExists := fun _ => false }

/-- A world in which `/var/lib/lxc/bare` exists as a directory but holds
neither a config file nor a rootfs subtree, and no listing command
reports anything. -/
def barePlainEnv : PlainCheckEnv :=
  { home := "/root"
    lxcLsStdout := some ""
    lxcLsFancyStdout := some ""
    lxcListCsvStdout := some ""
    pathExists := fun p => p == "/var/lib/lxc/bare" }

/-- An executor world in which every directory probe and every listing
confirmation answers positively, but every structural (config/rootfs)
probe answers `no`. -/
def probeNoStructExec : Exec := fun cmd _ =>
  if strContains cmd "echo \x27yes\x27" then
    Except.ok { exit_code := some 0, stdout := "no", stderr := "" }
  else
    Except.ok { exit_code := some 0, stdout := "found", stderr := "" }

/-- A creation world: LXC installed, the container never reported as
existing (neither before creation nor by any of the five re-polls), and
the creation command exiting 0. -/
def createEnvUnverified : CreateEnv :=
  { lxcInstalled := true
    templatesDetected := true
    needsRootForLxc := false
    setupRhelResult := none
    installCmd := "apt install -y lxc lxc-templates"
    checkExists := fun _ => false
    runShell := fun _ => Except.ok { exit_code := some 0, stdout := "", stderr := "" } }

/-- The same creation world except that the first post-creation re-poll
confirms the container. -/
def createEnvVerified : CreateEnv :=
  { createEnvUnverified with checkExists := fun n => decide (0 < n) }

/-- A creation world in which the pre-creation existence check already
reports the container. -/
def createEnvDup : CreateEnv :=
  { createEnvUnverified with checkExists := fun _ => true }

/-- A listing world in which only the non-sudo one-per-line enumerator
answers, with the single raw line `a:b`. -/
def colonListEnv : ListEnv :=
  { exec := fun cmd _ =>
      if cmd = plainLxcLsCmd then
        Except.ok { exit_code := some 0, stdout := "a:b\n", stderr := "" }
      else Except.error (ExecError.Failed "indisponible")
    readDir := fun _ => none
    fsExists := fun _ => false
    statusOf := fun _ => "UNKNOWN" }

/-- The listing world of the specification example: the sudo enumerator
returns the four raw lines `web01`, `bash: lxc-ls: command not found`,
a whitespace-only line, and `db-2`; every other probe fails. -/
def exampleListEnv : ListEnv :=
  { exec := fun cmd _ =>
      if cmd = sudoLxcLsCmd then
        Except.ok { exit_code := some 0
                    stdout := "web01\nbash: lxc-ls: command not found\n  \ndb-2\n"
                    stderr := "" }
      else Except.error (ExecError.Failed "indisponible")
    readDir := fun _ => none
    fsExists := fun _ => false
    statusOf := fun _ => "STOPPED" }

/-- An executor world for a host without the container: every
config-path probe answers `not found`, and the forced destroy command
exits 1 reporting that the target does not exist. -/
def destroyNotFoundExec : Exec := fun cmd _ =>
  if cmd = destroyCmdByName "nonexistent" then
    Except.ok { exit_code := some 1
                stdout := "lxc-destroy: nonexistent doesn\x27t exist"
                stderr := "" }
  else
    Except.ok { exit_code := some 1, stdout := "not found", stderr := "" }

/-- A spawn world in which every process runs and exits 2. -/
def spawnEnvExitTwo : SpawnEnv := fun _ =>
  SpawnResult.finished (some 2) "partial output" "some diagnostics"

/-- A spawn world in which no process can be launched. -/
def spawnEnvLaunchFail : SpawnEnv := fun _ =>
  SpawnResult.failed "No such file or directory (os error 2)"

/-- Helper: every error screen of the password prompt either retries or
cancels, never succeeds. -/
theorem retryOrCancel_ne_success (k : Key) : retryOrCancel k ≠ AuthOutcome.success := by
  unfold retryOrCancel
  split <;> simp

/-- C10: ghost cleanup is infallible and constant in its observable
result: for every executor world and every name, `cleanup_ghost_container`
returns `Ok` with a synthetic exit code 0 and empty stdout and stderr,
whatever each advisory sub-command did. -/
theorem cleanup_ghost_always_synthetic_success :
    ∀ (exec : Exec) (name : String),
      cleanup_ghost_container exec name
        = Except.ok { exit_code := some 0, stdout := "", stderr := "" } :=
  fun _ _ => rfl

/-- C6 counterexample: in a world whose forced destroy command answers
with the tool's target-not-found outcome (exit code 1),
`destroy_container_by_name` returns that non-zero result verbatim and
the caller `containers_destroy` classifies it as a failure — destroying
a nonexistent container is not reported as success, so "target not
found" is not treated as success anywhere in the code. -/
theorem destroy_nonexistent_reported_failure :
    destroy_container_by_name destroyNotFoundExec "/root" "nonexistent"
      = Except.ok { exit_code := some 1
                    stdout := "lxc-destroy: nonexistent doesn\x27t exist"
                    stderr := "" }
    ∧ destroy_reported_success
        (destroy_container_by_name destroyNotFoundExec "/root" "nonexistent") = false := by
  constructor <;> rfl

/-- C6 (amended): `destroy_container_by_name` attempts a best-effort
stop whose result is wholly discarded, then issues the forced destroy
command and passes its result through unchanged; any non-zero exit —
including the tool's "target not found" — is classified as a failure by
the caller, so destroy of a nonexistent name is not reported as
success. -/
theorem destroy_ignores_stop_and_passes_result_through :
    ∀ (exec : Exec) (home name : String) (code : Option Int) (out err : String),
      destroy_container_by_name exec home name = exec (destroyCmdByName name) true
      ∧ (code ≠ some 0 →
          destroy_reported_success
            (Except.ok { exit_code := code, stdout := out, stderr := err }) = false) := by
  intro exec home name code out err
  refine ⟨rfl, fun h => ?_⟩
  simp [destroy_reported_success, h]

/-- Witness for the amended C6 theorem at a concrete world and exit
code. -/
theorem destroy_ignores_stop_and_passes_result_through_witness :
    destroy_container_by_name destroyNotFoundExec "/root" "nonexistent"
        = destroyNotFoundExec (destroyCmdByName "nonexistent") true
    ∧ destroy_reported_success
        (Except.ok { exit_code := some 1, stdout := "", stderr := "" }) = false :=
  ⟨(destroy_ignores_stop_and_passes_result_through destroyNotFoundExec "/root" "nonexistent"
      (some 1) "" "").1,
   (destroy_ignores_stop_and_passes_result_through destroyNotFoundExec "/root" "nonexistent"
      (some 1) "" "").2 (by decide)⟩

/-- C3: for every command, requiring privilege outside Admin mode yields
the `NotAllowed` error, and on any privilege-policy denial — trust level
below Admin, or the escalation tool absent — the executor issues no
spawn request at all. -/
theorem run_shell_policy_denial_spawns_nothing :
    ∀ (mode : ActionMode) (has_sudo : Bool) (env : SpawnEnv) (cmd : String),
      (mode ≠ ActionMode.Admin →
        run_shell mode has_sudo env cmd true
          = (Except.error (ExecError.NotAllowed notAllowedMsg), []))
      ∧ (has_sudo = false → (run_shell mode has_sudo env cmd true).2 = []) := by
  intro mode has_sudo env cmd
  constructor
  · intro h
    simp [run_shell, h]
  · intro h
    by_cases hm : mode = ActionMode.Admin
    · simp [run_shell, hm, h]
    · simp [run_shell, hm]

/-- Witness for C3 at a concrete non-Admin world without sudo. -/
theorem run_shell_policy_denial_spawns_nothing_witness :
    run_shell ActionMode.Safe false spawnEnvExitTwo "lxc-ls -1" true
        = (Except.error (ExecError.NotAllowed notAllowedMsg), [])
    ∧ (run_shell ActionMode.Safe false spawnEnvExitTwo "lxc-ls -1" true).2 = [] :=
  ⟨(run_shell_policy_denial_spawns_nothing ActionMode.Safe false spawnEnvExitTwo "lxc-ls -1").1
      (by decide),
   (run_shell_policy_denial_spawns_nothing ActionMode.Safe false spawnEnvExitTwo "lxc-ls -1").2
      rfl⟩

/-- C9: once the privilege policy admits the command, a spawn failure is
returned as the `Failed(message)` error, while a process that runs and
exits — with any code — yields a successful `CommandOutput` carrying
that exit code and the captured stdout and stderr text. -/
theorem run_shell_distinguishes_spawn_failure :
    ∀ (mode : ActionMode) (has_sudo : Bool) (env : SpawnEnv) (cmd msg : String)
      (code : Option Int) (out err : String) (requires_admin : Bool),
      (requires_admin = true → mode = ActionMode.Admin ∧ has_sudo = true) →
      (env (spawnReqFor mode cmd requires_admin) = SpawnResult.failed msg →
        run_shell mode has_sudo env cmd requires_admin
          = (Except.error (ExecError.Failed (spawnFailMsg mode requires_admin msg)),
             [spawnReqFor mode cmd requires_admin]))
      ∧ (env (spawnReqFor mode cmd requires_admin) = SpawnResult.finished code out err →
        run_shell mode has_sudo env cmd requires_admin
          = (Except.ok { exit_code := code, stdout := out, stderr := err },
             [spawnReqFor mode cmd requires_admin])) := by
  intro mode has_sudo env cmd msg code out err requires_admin hpol
  cases requires_admin with
  | false =>
      constructor <;> intro h <;> simp [run_shell, h]
  | true =>
      obtain ⟨hA, hS⟩ := hpol rfl
      subst hA
      subst hS
      constructor <;> intro h <;> simp [run_shell, h]

/-- Witness for C9: a spawn-failure world and an exit-2 world at the
same command. -/
theorem run_shell_distinguishes_spawn_failure_witness :
    run_shell ActionMode.Safe true spawnEnvLaunchFail "uptime" false
        = (Except.error (ExecError.Failed
            (spawnFailMsg ActionMode.Safe false "No such file or directory (os error 2)")),
           [spawnReqFor ActionMode.Safe "uptime" false])
    ∧ run_shell ActionMode.Safe true spawnEnvExitTwo "uptime" false
        = (Except.ok { exit_code := some 2
                       stdout := "partial output"
                       stderr := "some diagnostics" },
           [spawnReqFor ActionMode.Safe "uptime" false]) :=
  ⟨(run_shell_distinguishes_spawn_failure ActionMode.Safe true spawnEnvLaunchFail "uptime"
      "No such file or directory (os error 2)" (some 2) "partial output" "some diagnostics"
      false (by simp)).1 rfl,
   (run_shell_distinguishes_spawn_failure ActionMode.Safe true spawnEnvExitTwo "uptime"
      "No such file or directory (os error 2)" (some 2) "partial output" "some diagnostics"
      false (by simp)).2 rfl⟩

/-- C1 counterexample: in a world where every listing command reports
the name `ghosty` but no storage-root directory for it exists, the plain
`check_container_exists` (cited by the claim alongside the executor
variant) reports the container as existing — the first listing hit
short-circuits before the filesystem is ever consulted, so filesystem
validity does not take precedence in this existence check. -/
theorem check_container_exists_trusts_listing_over_fs :
    check_container_exists ghostPlainEnv "ghosty" = true
    ∧ ghostPlainEnv.pathExists ("/var/lib/lxc/" ++ "ghosty") = false
    ∧ ghostPlainEnv.pathExists (ghostPlainEnv.home ++ "/.local/share/lxc/" ++ "ghosty") = false := by
  refine ⟨by decide, rfl, rfl⟩

/-- C1 (amended): in `check_container_exists_with_executor` — the
existence check used around creation — filesystem validity does take
precedence over all listing signals: whenever no probed storage-root
directory is structurally valid (no config-file probe and no rootfs
probe answers `yes`), the check reports `false`, whatever every listing
confirmation answers.  The plain `check_container_exists` instead trusts
its listing hits first. -/
theorem check_with_executor_invalid_fs_overrides_listings :
    ∀ (exec : Exec) (home name : String),
      (∀ p ∈ containerPathsExec home name, validStructureAt exec p = false) →
      check_container_exists_with_executor exec home name = false := by
  intro exec home name h
  have hv : (containerPathsExec home name).any (fun p => validStructureAt exec p) = false := by
    rw [List.any_eq_false]
    intro p hp
    simp [h p hp]
  unfold check_container_exists_with_executor
  cases hfs : (containerPathsExec home name).any
      (fun p => execStdoutContains exec (testDirCmd p) true "found") with
  | false => simp [hfs]
  | true => simp [hfs, hv]

/-- Witness for the amended C1 theorem: a world whose listing
confirmations all answer `found` while every structural probe answers
`no`. -/
theorem check_with_executor_invalid_fs_overrides_listings_witness :
    check_container_exists_with_executor probeNoStructExec "/root" "ghost" = false :=
  check_with_executor_invalid_fs_overrides_listings probeNoStructExec "/root" "ghost" (by decide)

/-- C8 counterexample: a bare directory `/var/lib/lxc/bare` holding
neither a config file nor a rootfs subtree makes the plain
`check_container_exists` (cited by the claim) report the container as
existing: its filesystem fallback tests directory presence alone and
never validates the structure. -/
theorem check_container_exists_accepts_bare_directory :
    check_container_exists barePlainEnv "bare" = true
    ∧ barePlainEnv.pathExists "/var/lib/lxc/bare" = true
    ∧ barePlainEnv.pathExists "/var/lib/lxc/bare/config" = false
    ∧ barePlainEnv.pathExists "/var/lib/lxc/bare/rootfs" = false := by
  refine ⟨by decide, by decide, by decide, by decide⟩

/-- C8 (amended): in `check_container_exists_with_executor`, a directory
that matches the container name but contains neither a configuration
file nor a rootfs subtree is not a valid container: when the directory
probe answers `found` but every structural probe answers `no`, the check
reports `false`.  The plain `check_container_exists` instead accepts
bare directory presence. -/
theorem check_with_executor_rejects_bare_directory :
    ∀ (exec : Exec) (home name : String),
      execStdoutContains exec (testDirCmd ("/var/lib/lxc/" ++ name)) true "found" = true →
      (∀ p ∈ containerPathsExec home name, validStructureAt exec p = false) →
      check_container_exists_with_executor exec home name = false := by
  intro exec home name hdir h
  have hv : (containerPathsExec home name).any (fun p => validStructureAt exec p) = false := by
    rw [List.any_eq_false]
    intro p hp
    simp [h p hp]
  have hfs : (containerPathsExec home name).any
      (fun p => execStdoutContains exec (testDirCmd p) true "found") = true := by
    rw [List.any_eq_true]
    exact ⟨"/var/lib/lxc/" ++ name, by simp [containerPathsExec], hdir⟩
  unfold check_container_exists_with_executor
  simp [hfs, hv]

/-- Witness for the amended C8 theorem at a concrete world. -/
theorem check_with_executor_rejects_bare_directory_witness :
    check_container_exists_with_executor probeNoStructExec "/root" "bare" = false :=
  check_with_executor_rejects_bare_directory probeNoStructExec "/root" "bare"
    (by decide) (by decide)

/-- C7: whenever LXC is installed and the pre-creation existence check
reports the container, `create_container` returns the "existe déjà"
failure and hands no creation command at all to the executor — neither
the primary alpine syntax nor the download fallback. -/
theorem create_rejects_existing_without_creation_cmd :
    ∀ (w : CreateEnv) (name ver : String),
      w.lxcInstalled = true →
      w.checkExists 0 = true →
      (create_container w name ver).result
          = Except.error (ExecError.Failed ("Le container " ++ name ++ " existe déjà"))
      ∧ (create_container w name ver).creationCmds = [] := by
  intro w name ver h1 h2
  constructor <;> simp [create_container, h1, h2]

/-- Witness for C7 at a concrete world whose existence check answers
true. -/
theorem create_rejects_existing_without_creation_cmd_witness :
    (create_container createEnvDup "web01" "3.19").result
        = Except.error (ExecError.Failed ("Le container " ++ "web01" ++ " existe déjà"))
    ∧ (create_container createEnvDup "web01" "3.19").creationCmds = [] :=
  create_rejects_existing_without_creation_cmd createEnvDup "web01" "3.19" rfl rfl

/-- C4 counterexample: in a world where the creation command exits 0 but
none of the five post-creation re-polls ever confirms the container,
`create_container` returns the plain `Ok` success value — bit-for-bit
the same return value as in a world where the first re-poll does confirm
it.  There is no distinct `Unverified` outcome in the return value, so
callers cannot display one. -/
theorem create_unconfirmed_result_equals_plain_success :
    createEnvUnverified.checkExists 0 = false
    ∧ createEnvUnverified.checkExists 1 = false
    ∧ createEnvUnverified.checkExists 2 = false
    ∧ createEnvUnverified.checkExists 3 = false
    ∧ createEnvUnverified.checkExists 4 = false
    ∧ createEnvUnverified.checkExists 5 = false
    ∧ (create_container createEnvUnverified "y" "3.19").result
        = Except.ok { exit_code := some 0, stdout := "", stderr := "" }
    ∧ (create_container createEnvUnverified "y" "3.19").result
        = (create_container createEnvVerified "y" "3.19").result :=
  ⟨rfl, rfl, rfl, rfl, rfl, rfl, rfl, rfl⟩

/-- C4 (amended): when the creation command exits 0 and the bounded
re-polling (5 attempts) never confirms the container, `create_container`
still returns the tool-reported plain success result unchanged; the
failed confirmation is recorded only in the deployment log, as the
"semble créé mais n'est pas détectable" error entry. -/
theorem create_unconfirmed_logs_warning_returns_ok :
    ∀ (w : CreateEnv) (name ver : String) (o : CommandOutput),
      w.lxcInstalled = true →
      w.checkExists 0 = false →
      w.needsRootForLxc = false →
      w.runShell (createCmd1 name ver) = Except.ok o →
      o.exit_code = some 0 →
      w.checkExists 1 = false →
      w.checkExists 2 = false →
      w.checkExists 3 = false →
      w.checkExists 4 = false →
      w.checkExists 5 = false →
      (create_container w name ver).result = Except.ok o
      ∧ LogEntry.error createUnverifiedWarning ∈ (create_container w name ver).log := by
  intro w name ver o h1 h2 h3 h4 h5 hc1 hc2 hc3 hc4 hc5
  constructor <;>
    simp [create_container, h1, h2, h3, h4, h5, hc1, hc2, hc3, hc4, hc5, List.find?]

/-- Witness for the amended C4 theorem at the concrete unverified
world. -/
theorem create_unconfirmed_logs_warning_returns_ok_witness :
    (create_container createEnvUnverified "y" "3.19").result
        = Except.ok { exit_code := some 0, stdout := "", stderr := "" }
    ∧ LogEntry.error createUnverifiedWarning
        ∈ (create_container createEnvUnverified "y" "3.19").log :=
  create_unconfirmed_logs_warning_returns_ok createEnvUnverified "y" "3.19"
    { exit_code := some 0, stdout := "", stderr := "" }
    rfl rfl rfl rfl rfl rfl rfl rfl rfl rfl

/-- C5 counterexample: the non-sudo one-per-line enumerator strategy of
`list_all_containers` carries no token validator — in a world where that
command returns the single raw line `a:b` (a line containing a colon),
the reconciler accepts it into the final set of container names. -/
theorem plain_lxc_ls_accepts_colon_line :
    (list_all_containers colonListEnv).map (fun c => c.name) = ["a:b"]
    ∧ strContains "a:b" ":" = true := by
  exact ⟨by decide, by decide⟩

/-- C5 (amended): the whitespace/colon/length filter holds for the sudo
one-per-line enumerator, the structured-list strategy and the directory
strategy — any token containing a whitespace character or a colon, or of
byte length at least 50, is excluded there (whitespace other than the
space character falls to the alphanumeric-only validators) — and the
specification example evaluates as stated; the non-sudo one-per-line
enumerator, however, filters only by error text and length, so it can
accept lines with whitespace or colons. -/
theorem validated_strategies_exclude_bad_tokens :
    (∀ (found : List String) (line : String),
        line.data.any Char.isWhitespace = true ∨ strContains line ":" = true
            ∨ 50 ≤ line.utf8ByteSize →
        accept_sudo_lxc_ls found line = false
        ∧ accept_csv_name found line = false
        ∧ accept_dir_entry found line = false)
    ∧ (list_all_containers exampleListEnv).map (fun c => c.name) = ["db-2", "web01"] := by
  constructor
  · intro found line h
    rcases h with h | h | h
    · obtain ⟨c, hc, hw⟩ := List.any_eq_true.mp h
      have hchar : (c.isAlphanum || c == '-' || c == '_') = false := by
        have hw4 : c = ' ' ∨ c = '\t' ∨ c = '\r' ∨ c = '\n' := by
          simpa [Char.isWhitespace, or_assoc] using hw
        rcases hw4 with rfl | rfl | rfl | rfl <;> decide
      have hall : (line.data.all (fun c => c.isAlphanum || c == '-' || c == '_')) = false := by
        rw [List.all_eq_false]
        exact ⟨c, hc, by simp [hchar]⟩
      refine ⟨?_, ?_, ?_⟩ <;>
        simp [accept_sudo_lxc_ls, accept_csv_name, accept_dir_entry,
          is_valid_name_strict, is_valid_name_csv, hall]
    · refine ⟨?_, ?_, ?_⟩ <;>
        simp [accept_sudo_lxc_ls, accept_csv_name, accept_dir_entry, is_valid_name_strict, h]
    · have hlen : decide (line.utf8ByteSize < 50) = false := by
        simp
        omega
      refine ⟨?_, ?_, ?_⟩ <;>
        simp [accept_sudo_lxc_ls, accept_csv_name, accept_dir_entry, hlen]
  · decide

/-- Witness for the amended C5 theorem at the tab-holding token `a\tb`
(whitespace that is not the space character). -/
theorem validated_strategies_exclude_bad_tokens_witness :
    accept_sudo_lxc_ls [] "a\tb" = false
    ∧ accept_csv_name [] "a\tb" = false
    ∧ accept_dir_entry [] "a\tb" = false :=
  validated_strategies_exclude_bad_tokens.1 [] "a\tb" (Or.inl (by decide))

/-- C2: one pass of the admin password prompt reports success exactly
when the password is non-empty, `sudo -S -v` could be spawned and fed,
its exit code is exactly 0, and the separate non-interactive `sudo -n
-v` validation probe also exits exactly 0; in every other case the pass
re-prompts (retry) or returns failure (cancel) — either exit code being
non-zero is never reported as success. -/
theorem sudo_prompt_requires_dual_confirmation :
    ∀ env : AuthEnv,
      (show_sudo_password_prompt_attempt env = AuthOutcome.success ↔
        (env.passwordEntry.getD "").isEmpty = false
        ∧ env.spawnOk = true ∧ env.writeOk = true
        ∧ env.waitStatus = some (some 0)
        ∧ env.verifyStatus = some (some 0))
      ∧ (show_sudo_password_prompt_attempt env = AuthOutcome.success
          ∨ show_sudo_password_prompt_attempt env = AuthOutcome.retry
          ∨ show_sudo_password_prompt_attempt env = AuthOutcome.cancel) := by
  intro env
  refine ⟨?_, by cases h : show_sudo_password_prompt_attempt env <;> simp⟩
  obtain ⟨pe, so, wo, ws, vs, k1, k2, k3, k4, k5, k6⟩ := env
  cases pe with
  | none =>
      constructor
      · intro h
        exact absurd h (by simp [show_sudo_password_prompt_attempt])
      · intro h
        have h2 := h.1
        simp only [Option.getD] at h2
        exact absurd h2 (by decide)
  | some pw =>
      cases so <;> cases wo <;>
        rcases ws with _ | (_ | cc) <;> rcases vs with _ | (_ | vv) <;>
          simp only [show_sudo_password_prompt_attempt, Option.getD_some, Option.getD,
            retryOrCancel] <;>
          split_ifs <;>
          simp_all
